import Mathlib

/-!
Verification of the Assessment Orchestration Engine of a harm-based
misinformation detection service.

The engine lives in two source files:
  * `server/src/services/harmIndex.ts` — the pure fusion calculator
    (`computeHarmIndex`), the outcome predictor
    (`generateHistoricalOutcomes`) and the narrative composer
    (`generateExplanation`);
  * `server/src/routes/analyze.ts` — the orchestrator route, which fans
    out to five ML producers, substitutes static defaults on failure, and
    assembles the final assessment.

JavaScript numbers are modelled as `ℚ`: every constant in the source is a
short decimal, so all arithmetic performed by the engine is exact, and
`Math.round x = ⌊x + 1/2⌋` agrees with Mathlib's `round` on `ℚ`
(both round halves up).  The TypeScript string-literal unions become
inductive types.  Producer calls, which `analyze.ts` awaits and rescues to
`null` individually, are modelled as `Option`-valued responses handed to
the orchestrator function.
-/

/-- `EmotionScores` from harmIndex.ts: five emotion magnitudes. -/
structure EmotionScores where
  anger : ℚ
  fear : ℚ
  joy : ℚ
  sadness : ℚ
  neutral : ℚ
deriving DecidableEq, Repr

/-- The `type` field of `IntentAnalysis`: the closed set of intent labels
('Action-oriented' becomes `ActionOriented`). -/
inductive IntentType
  | Informational
  | Persuasive
  | ActionOriented
  | Alarmist
  | Inciting
deriving DecidableEq, Repr

/-- `IntentAnalysis` from harmIndex.ts. -/
structure IntentAnalysis where
  type : IntentType
  hasExplicitCTA : Bool
  hasImplicitCTA : Bool
  dogWhistleProbability : ℚ
deriving DecidableEq, Repr

/-- The 'High' | 'Medium' | 'Low' string union used for evidence
confidence and for outcome probabilities. -/
inductive Grade
  | High
  | Medium
  | Low
deriving DecidableEq, Repr

/-- `TruthVerification` from harmIndex.ts. -/
structure TruthVerification where
  similarityToFalseNarratives : ℚ
  evidenceConfidence : Grade
  contradictorySources : Bool
  similarClaims : List String
deriving DecidableEq, Repr

/-- `HarmIndexInput` from harmIndex.ts; `cnnHarmScore?` is optional. -/
structure HarmIndexInput where
  text : String
  emotionScores : EmotionScores
  intentAnalysis : IntentAnalysis
  truthVerification : TruthVerification
  cnnHarmScore : Option ℚ
deriving DecidableEq, Repr

/-- One entry of `historicalContext.pastOutcomes`. -/
structure OutcomeEntry where
  outcome : String
  probability : Grade
deriving DecidableEq, Repr

/-- The 'Low' | 'Medium' | 'High' risk tier. -/
inductive RiskLevel
  | Low
  | Medium
  | High
deriving DecidableEq, Repr

/-- `HarmAssessment` from harmIndex.ts (the `historicalContext` wrapper
object is flattened into the `pastOutcomes` list). -/
structure HarmAssessment where
  harmIndex : ℤ
  riskLevel : RiskLevel
  uncertainty : ℤ
  emotionScores : EmotionScores
  intentAnalysis : IntentAnalysis
  truthVerification : TruthVerification
  pastOutcomes : List OutcomeEntry
  cnnHarmScore : Option ℚ
  explanation : String
deriving DecidableEq, Repr

/-- harmIndex.ts lines 125-168, `generateHistoricalOutcomes`: threshold
rules pushed in source order, with a fallback entry when none fired.
The sequence of `outcomes.push` calls is modelled by successive `let`
rebindings appending a singleton. -/
def generateHistoricalOutcomes (harmIndex : ℤ) (intentType : IntentType)
    (emotions : EmotionScores) : List OutcomeEntry :=
  let outcomes : List OutcomeEntry := []
  let outcomes := if emotions.fear > 0.6 then
    outcomes ++ [⟨"Panic behavior or anxiety",
      if harmIndex > 60 then .High else .Medium⟩] else outcomes
  let outcomes := if emotions.anger > 0.6 then
    outcomes ++ [⟨"Social unrest or confrontational behavior",
      if harmIndex > 70 then .High else .Medium⟩] else outcomes
  let outcomes := if intentType = .Alarmist ∨ intentType = .Inciting then
    outcomes ++ [⟨"Rapid misinformation spread", .High⟩] else outcomes
  let outcomes := if intentType = .ActionOriented then
    outcomes ++ [⟨"Inappropriate action without verification", .Medium⟩] else outcomes
  if outcomes = [] then [⟨"Limited behavioral impact", .Low⟩] else outcomes

/-- harmIndex.ts lines 176-207: the `parts` array built by
`generateExplanation` before joining. -/
def explanationParts (emotions : EmotionScores) (intent : IntentAnalysis)
    (truth : TruthVerification) : List String :=
  (if emotions.anger > 0.6 ∨ emotions.fear > 0.6 then
    ["The statement is conveyed with **high emotional intensity** (anger and/or fear)"]
  else if emotions.anger > 0.3 ∨ emotions.fear > 0.3 then
    ["The statement shows **moderate emotional intensity**"]
  else
    ["The statement has **low emotional intensity**"]) ++
  (if intent.hasExplicitCTA then
    ["It includes **explicit calls to action**"]
  else if intent.hasImplicitCTA then
    ["It includes **implicit calls to action**"]
  else []) ++
  (if intent.dogWhistleProbability > 0.6 then
    ["Potential **coded language or dog-whistles** detected"]
  else []) ++
  (if truth.similarityToFalseNarratives > 0.7 then
    ["It shows **high similarity to known false narratives**"]
  else if truth.similarityToFalseNarratives > 0.4 then
    ["It shows **moderate similarity to debunked claims**"]
  else []) ++
  (if truth.contradictorySources then
    ["Current verified sources **contradict or do not support** the claim"]
  else [])

/-- harmIndex.ts lines 170-210, `generateExplanation`:
`'• ' + parts.join('\n• ')`.  The `harmIndex` parameter is received but
never used, exactly as in the source. -/
def generateExplanation (_harmIndex : ℤ) (emotions : EmotionScores)
    (intent : IntentAnalysis) (truth : TruthVerification) : String :=
  "• " ++ String.intercalate "\n• " (explanationParts emotions intent truth)

/-- harmIndex.ts lines 56-62: the `intentRiskMap` lookup table. -/
def intentRiskMap : IntentType → ℚ
  | .Informational => 0.1
  | .Persuasive => 0.4
  | .ActionOriented => 0.6
  | .Alarmist => 0.75
  | .Inciting => 0.9

/-- harmIndex.ts line 72: the `evidenceConfidenceMap` lookup table. -/
def evidenceConfidenceMap : Grade → ℚ
  | .High => 0.1
  | .Medium => 0.5
  | .Low => 0.8

/-- harmIndex.ts lines 48-123, `computeHarmIndex`.  `input.cnnHarmScore
|| 0` becomes `Option.getD 0` (for a present score in `[0,1]` the two
agree: `0 || 0` is `0`). -/
def computeHarmIndex (input : HarmIndexInput) : HarmAssessment :=
  let emotionScores := input.emotionScores
  let intentAnalysis := input.intentAnalysis
  let truthVerification := input.truthVerification
  let emotionVolatility :=
    (emotionScores.anger * 1.2 + emotionScores.fear * 1.1) / 2
  let baseIntentRisk := intentRiskMap intentAnalysis.type
  let ctaBonus : ℚ := if intentAnalysis.hasExplicitCTA then 0.15
    else if intentAnalysis.hasImplicitCTA then 0.1 else 0
  let dogWhistleBonus := intentAnalysis.dogWhistleProbability * 0.2
  let intentRisk := min 1 (baseIntentRisk + ctaBonus + dogWhistleBonus)
  let historicalHarm := truthVerification.similarityToFalseNarratives
  let truthUncertainty := evidenceConfidenceMap truthVerification.evidenceConfidence
  let contradictionBonus : ℚ := if truthVerification.contradictorySources then 0.15 else 0
  let finalTruthUncertainty := min 1 (truthUncertainty + contradictionBonus)
  let cnnScore := input.cnnHarmScore.getD 0
  let harmIndex : ℤ := round (
    emotionVolatility * 20 +
    intentRisk * 25 +
    historicalHarm * 20 +
    finalTruthUncertainty * 15 +
    cnnScore * 20)
  let riskLevel : RiskLevel :=
    if harmIndex ≤ 30 then .Low
    else if harmIndex ≤ 60 then .Medium
    else .High
  let uncertainty : ℤ := 10 + round (emotionVolatility * 5 + finalTruthUncertainty * 5)
  let pastOutcomes := generateHistoricalOutcomes harmIndex intentAnalysis.type emotionScores
  let explanation := generateExplanation harmIndex emotionScores intentAnalysis truthVerification
  { harmIndex := harmIndex
    riskLevel := riskLevel
    uncertainty := uncertainty
    emotionScores := emotionScores
    intentAnalysis := intentAnalysis
    truthVerification := truthVerification
    pastOutcomes := pastOutcomes
    cnnHarmScore := input.cnnHarmScore
    explanation := explanation }

/-! ## The orchestrator (analyze.ts)

The route handler validates the request text, fires five producer calls
(each `.catch(() => null)`), substitutes a static default for every
missing response, computes the harm assessment, and attaches the
pattern/temporal/LLM payloads.  A producer response is modelled as
`Option`-valued data; `none` is any failure (network error, timeout,
non-2xx, rejected promise). -/

/-- The cnn-bert producer payload (analyze.ts lines 62-67); the unused
opaque `bert_features` object is not modelled.  `harm_score` is optional
because the orchestrator reads it with `?? 0`. -/
structure CnnBertResult where
  harm_score : Option ℚ
  confidence : ℚ
  cnn_patterns : List String
deriving DecidableEq, Repr

/-- The timeseries producer payload (analyze.ts lines 69-75). -/
structure TimeseriesData where
  detected_categories : List String
  trends : List String
  historical_context : String
  risk_forecast : String
  similar_incidents : List String
deriving DecidableEq, Repr

/-- The `text` field of the request body: absent, present but not a JSON
string, or a string.  `!text || typeof text !== 'string'` rejects the
first two unconditionally and a string exactly when it is empty. -/
inductive ReqText
  | absent
  | nonString
  | str (s : String)
deriving DecidableEq, Repr

/-- analyze.ts line 20: the validation predicate
`!text || typeof text !== 'string'`. -/
def textInvalid : ReqText → Bool
  | .absent => true
  | .nonString => true
  | .str s => s = ""

/-- The settled results of the five concurrent producer calls plus the
sequential LLM enrichment call; `none` models a failed call. -/
structure MLResponses where
  emotion : Option EmotionScores
  intent : Option IntentAnalysis
  rag : Option TruthVerification
  cnnBert : Option CnnBertResult
  timeseries : Option TimeseriesData
  llm : Option String
deriving DecidableEq, Repr

/-- The success payload assembled by analyze.ts lines 105-113. -/
structure AnalyzeData where
  assessment : HarmAssessment
  cnnBertResult : CnnBertResult
  timeseriesData : TimeseriesData
  llmExplanation : Option String
deriving DecidableEq, Repr

/-- The route's observable outcome: a 400 with an error message, or a
200 with the assembled data. -/
inductive AnalyzeResult
  | badRequest (error : String)
  | ok (data : AnalyzeData)
deriving DecidableEq, Repr

/-- analyze.ts lines 40-46: default emotion scores. -/
def defaultEmotionScores : EmotionScores :=
  ⟨0.1, 0.1, 0.2, 0.1, 0.5⟩

/-- analyze.ts lines 48-53: default intent analysis. -/
def defaultIntentAnalysis : IntentAnalysis :=
  ⟨.Informational, false, false, 0.1⟩

/-- analyze.ts lines 55-60: default truth verification. -/
def defaultTruthVerification : TruthVerification :=
  ⟨0.2, .Medium, false, []⟩

/-- analyze.ts lines 62-67: default cnn-bert result. -/
def defaultCnnBertResult : CnnBertResult :=
  ⟨some 0.3, 0.5, []⟩

/-- analyze.ts lines 69-75: default timeseries data. -/
def defaultTimeseriesData : TimeseriesData :=
  ⟨[], [], "No historical data available", "Unable to forecast", []⟩

/-- analyze.ts lines 16-121: the POST /analyze handler.  `response?.data
|| default` becomes `Option.getD`; `cnnBertResult.harm_score ?? 0`
becomes `Option.getD 0`; the LLM enrichment result (or `null` on
failure) is attached unchanged. -/
def analyze (text : ReqText) (responses : MLResponses) : AnalyzeResult :=
  if textInvalid text then
    .badRequest "Text is required and must be a string"
  else
    match text with
    | .str s =>
      let emotionScores := responses.emotion.getD defaultEmotionScores
      let intentAnalysis := responses.intent.getD defaultIntentAnalysis
      let truthVerification := responses.rag.getD defaultTruthVerification
      let cnnBertResult := responses.cnnBert.getD defaultCnnBertResult
      let timeseriesData := responses.timeseries.getD defaultTimeseriesData
      let cnnHarmScore := cnnBertResult.harm_score.getD 0
      let harmAssessment := computeHarmIndex
        ⟨s, emotionScores, intentAnalysis, truthVerification, some cnnHarmScore⟩
      .ok ⟨harmAssessment, cnnBertResult, timeseriesData, responses.llm⟩
    | _ => .badRequest "Text is required and must be a string"

/-! ## Spec-side definitions

These definitions transcribe the claims' wording of the fusion formula
and of the outcome/narrative rule lists; the theorems compare them with
the source-derived functions above. -/

/-- Spec: `emotionVolatility = (anger*1.2 + fear*1.1)/2` (unclamped). -/
def specEmotionVolatility (e : EmotionScores) : ℚ :=
  (e.anger * 1.2 + e.fear * 1.1) / 2

/-- Spec: base intent risk table Informational=0.10, Persuasive=0.40,
Action-oriented=0.60, Alarmist=0.75, Inciting=0.90. -/
def specBaseIntentRisk : IntentType → ℚ
  | .Informational => 0.1
  | .Persuasive => 0.4
  | .ActionOriented => 0.6
  | .Alarmist => 0.75
  | .Inciting => 0.9

/-- Spec: `intentRisk = min(1, baseIntentRisk + ctaBonus +
dogWhistleProbability*0.20)` with ctaBonus = 0.15 if explicit CTA else
0.10 if implicit CTA else 0. -/
def specIntentRisk (i : IntentAnalysis) : ℚ :=
  min 1 (specBaseIntentRisk i.type +
    (if i.hasExplicitCTA then 0.15 else if i.hasImplicitCTA then 0.1 else 0) +
    i.dogWhistleProbability * 0.2)

/-- Spec: `truthUncertainty` = confidence lookup High=0.10, Medium=0.50,
Low=0.80, plus 0.15 if contradictory sources, capped at 1. -/
def specTruthUncertainty (t : TruthVerification) : ℚ :=
  min 1 ((match t.evidenceConfidence with
    | .High => 0.1
    | .Medium => 0.5
    | .Low => 0.8) +
    (if t.contradictorySources then 0.15 else 0))

/-- Spec: composite score = round(emotionVolatility*20 + intentRisk*25 +
historicalHarm*20 + truthUncertainty*15 + patternHarmProbability*20),
with historicalHarm = similarityToFalseNarratives and the pattern harm
probability treated as 0 when absent. -/
def specCompositeScore (input : HarmIndexInput) : ℤ :=
  round (specEmotionVolatility input.emotionScores * 20 +
    specIntentRisk input.intentAnalysis * 25 +
    input.truthVerification.similarityToFalseNarratives * 20 +
    specTruthUncertainty input.truthVerification * 15 +
    (input.cnnHarmScore.getD 0) * 20)

/-- Spec: the four outcome threshold rules in fixed order, then the
single fallback entry when none fired. -/
def specPredictedOutcomes (score : ℤ) (intentType : IntentType)
    (emotions : EmotionScores) : List OutcomeEntry :=
  let fired :=
    (if emotions.fear > 0.6 then
      [⟨"Panic behavior or anxiety", if score > 60 then .High else .Medium⟩]
    else []) ++
    (if emotions.anger > 0.6 then
      [⟨"Social unrest or confrontational behavior", if score > 70 then .High else .Medium⟩]
    else []) ++
    (if intentType = .Alarmist ∨ intentType = .Inciting then
      [⟨"Rapid misinformation spread", .High⟩]
    else []) ++
    (if intentType = .ActionOriented then
      [⟨"Inappropriate action without verification", .Medium⟩]
    else [])
  if fired = [] then [⟨"Limited behavioral impact", .Low⟩] else fired

/-- The three mutually exclusive emotion-intensity clauses of the
narrative composer. -/
def emotionIntensityClauses : List String :=
  ["The statement is conveyed with **high emotional intensity** (anger and/or fear)",
   "The statement shows **moderate emotional intensity**",
   "The statement has **low emotional intensity**"]

/-- Spec (amended for the always-present emotion clause): the narrative
clause list — the emotion-intensity tier contributes exactly one clause
(high if anger > 0.6 or fear > 0.6, moderate if anger > 0.3 or
fear > 0.3, otherwise low), and each further clause appears exactly when
its threshold is met (explicit CTA, else implicit CTA; dog-whistle
probability > 0.6; similarity > 0.7, else > 0.4; contradictory
sources), in this fixed order. -/
def specNarrativeClauses (e : EmotionScores) (i : IntentAnalysis)
    (t : TruthVerification) : List String :=
  (if e.anger > 0.6 ∨ e.fear > 0.6 then
    ["The statement is conveyed with **high emotional intensity** (anger and/or fear)"]
  else if e.anger > 0.3 ∨ e.fear > 0.3 then
    ["The statement shows **moderate emotional intensity**"]
  else
    ["The statement has **low emotional intensity**"]) ++
  (if i.hasExplicitCTA then
    ["It includes **explicit calls to action**"]
  else if i.hasImplicitCTA then
    ["It includes **implicit calls to action**"]
  else []) ++
  (if i.dogWhistleProbability > 0.6 then
    ["Potential **coded language or dog-whistles** detected"]
  else []) ++
  (if t.similarityToFalseNarratives > 0.7 then
    ["It shows **high similarity to known false narratives**"]
  else if t.similarityToFalseNarratives > 0.4 then
    ["It shows **moderate similarity to debunked claims**"]
  else []) ++
  (if t.contradictorySources then
    ["Current verified sources **contradict or do not support** the claim"]
  else [])

/-- End-to-end scenario C of the specification: moderate fear 0.5 with
the other emotions low, intent Action-oriented with an implicit CTA and
dog-whistle probability 0.7, similarity 0.3 with Medium confidence, no
pattern signal. -/
def scenarioCInput : HarmIndexInput :=
  ⟨"scenario C", ⟨0.1, 0.5, 0.1, 0.1, 0.2⟩,
    ⟨.ActionOriented, false, true, 0.7⟩,
    ⟨0.3, .Medium, false, []⟩, none⟩

/-! ## Theorems -/

/-- C1: for every well-typed input, `computeHarmIndex` returns a
composite score equal to round(emotionVolatility*20 + intentRisk*25 +
historicalHarm*20 + truthUncertainty*15 + patternHarmProbability*20),
with emotionVolatility, intentRisk (with its base table, CTA bonus and
dog-whistle bonus, capped at 1), historicalHarm and the capped
truthUncertainty computed exactly as the specification states, and an
absent pattern harm probability treated as 0. -/
theorem computeHarmIndex_composite_formula (input : HarmIndexInput) :
    (computeHarmIndex input).harmIndex = specCompositeScore input := by
  obtain ⟨t, e, i, tv, c⟩ := input
  obtain ⟨ty, ex, im, dp⟩ := i
  obtain ⟨sim, conf, contra, claims⟩ := tv
  cases ty <;> cases conf <;> rfl

/-- C2: the risk tier is Low iff the composite score is ≤ 30, Medium iff
it is in [31, 60], and High iff it is > 60. -/
theorem computeHarmIndex_risk_tiers (input : HarmIndexInput) :
    ((computeHarmIndex input).riskLevel = .Low ↔
      (computeHarmIndex input).harmIndex ≤ 30) ∧
    ((computeHarmIndex input).riskLevel = .Medium ↔
      31 ≤ (computeHarmIndex input).harmIndex ∧ (computeHarmIndex input).harmIndex ≤ 60) ∧
    ((computeHarmIndex input).riskLevel = .High ↔
      60 < (computeHarmIndex input).harmIndex) := by
  have h : (computeHarmIndex input).riskLevel =
      (if (computeHarmIndex input).harmIndex ≤ 30 then RiskLevel.Low
       else if (computeHarmIndex input).harmIndex ≤ 60 then RiskLevel.Medium
       else RiskLevel.High) := rfl
  rw [h]
  split_ifs with h1 h2 <;>
    refine ⟨⟨fun hr => ?_, fun hr => ?_⟩, ⟨fun hr => ?_, fun hr => ?_⟩,
      ⟨fun hr => ?_, fun hr => ?_⟩⟩ <;>
    simp_all <;> omega

/-- C7: the uncertainty value equals 10 + round(emotionVolatility*5 +
truthUncertainty*5), using the capped truthUncertainty; it is an integer
(`ℤ` in the model) and no upper clamp is applied. -/
theorem computeHarmIndex_uncertainty_formula (input : HarmIndexInput) :
    (computeHarmIndex input).uncertainty =
      10 + round (specEmotionVolatility input.emotionScores * 5 +
        specTruthUncertainty input.truthVerification * 5) := by
  obtain ⟨t, e, i, tv, c⟩ := input
  obtain ⟨sim, conf, contra, claims⟩ := tv
  cases conf <;> rfl

/-- C9: `computeHarmIndex` passes its input signals through unchanged:
the emotion, intent and truth fields and the optional pattern score of
the returned assessment are exactly the corresponding input fields. -/
theorem computeHarmIndex_preserves_signals (input : HarmIndexInput) :
    (computeHarmIndex input).emotionScores = input.emotionScores ∧
    (computeHarmIndex input).intentAnalysis = input.intentAnalysis ∧
    (computeHarmIndex input).truthVerification = input.truthVerification ∧
    (computeHarmIndex input).cnnHarmScore = input.cnnHarmScore :=
  ⟨rfl, rfl, rfl, rfl⟩

/-- C4: the outcome predictor equals the spec's rule list — each of the
four threshold rules contributes its entry exactly when its condition
holds, in the fixed order and with the specified probabilities — the
result is never empty, and when no rule fires it is exactly the single
fallback entry ('Limited behavioral impact', Low). -/
theorem generateHistoricalOutcomes_rules (score : ℤ) (intentType : IntentType)
    (emotions : EmotionScores) :
    generateHistoricalOutcomes score intentType emotions =
      specPredictedOutcomes score intentType emotions ∧
    generateHistoricalOutcomes score intentType emotions ≠ [] ∧
    (emotions.fear ≤ 0.6 → emotions.anger ≤ 0.6 →
      intentType ≠ .Alarmist → intentType ≠ .Inciting → intentType ≠ .ActionOriented →
      generateHistoricalOutcomes score intentType emotions =
        [⟨"Limited behavioral impact", .Low⟩]) := by
  refine ⟨?_, ?_, ?_⟩
  · by_cases hf : emotions.fear > 0.6 <;> by_cases ha : emotions.anger > 0.6 <;>
      by_cases hi : intentType = .Alarmist ∨ intentType = .Inciting <;>
      by_cases ho : intentType = .ActionOriented <;>
      simp [generateHistoricalOutcomes, specPredictedOutcomes, hf, ha, hi, ho]
  · by_cases hf : emotions.fear > 0.6 <;> by_cases ha : emotions.anger > 0.6 <;>
      by_cases hi : intentType = .Alarmist ∨ intentType = .Inciting <;>
      by_cases ho : intentType = .ActionOriented <;>
      simp [generateHistoricalOutcomes, hf, ha, hi, ho]
  · intro h1 h2 h3 h4 h5
    simp [generateHistoricalOutcomes, not_lt.mpr h1, not_lt.mpr h2, h3, h4, h5]

/-- Witness for C4 at a concrete threshold-free input: the predictor
returns exactly the fallback entry. -/
theorem generateHistoricalOutcomes_rules_witness :
    generateHistoricalOutcomes 10 .Informational ⟨0.2, 0.3, 0.1, 0.1, 0.3⟩ =
      [⟨"Limited behavioral impact", .Low⟩] :=
  (generateHistoricalOutcomes_rules 10 .Informational ⟨0.2, 0.3, 0.1, 0.1, 0.3⟩).2.2
    (by norm_num) (by norm_num)
    (by decide) (by decide) (by decide)

/-- C3: when any one of the five concurrent producer calls fails, the
orchestrator still returns a complete Assessment in which the failed
signal is replaced by its static default (emotion 0.1/0.1/0.2/0.1/0.5,
intent Informational without CTAs and dog-whistle 0.1, truth 0.2/Medium/
no contradictions, pattern harm score 0.3), and the returned assessment
— in particular its composite score — equals `computeHarmIndex` applied
directly to the surviving signals plus these defaults. -/
theorem analyze_substitutes_defaults (s : String) (r : MLResponses)
    (hs : s ≠ "")
    (hfail : r.emotion = none ∨ r.intent = none ∨ r.rag = none ∨
      r.cnnBert = none ∨ r.timeseries = none) :
    analyze (.str s) r = .ok
      ⟨computeHarmIndex ⟨s,
          r.emotion.getD ⟨0.1, 0.1, 0.2, 0.1, 0.5⟩,
          r.intent.getD ⟨.Informational, false, false, 0.1⟩,
          r.rag.getD ⟨0.2, .Medium, false, []⟩,
          some ((r.cnnBert.getD ⟨some 0.3, 0.5, []⟩).harm_score.getD 0)⟩,
        r.cnnBert.getD ⟨some 0.3, 0.5, []⟩,
        r.timeseries.getD ⟨[], [], "No historical data available", "Unable to forecast", []⟩,
        r.llm⟩ := by
  simp [analyze, textInvalid, hs, defaultEmotionScores, defaultIntentAnalysis,
    defaultTruthVerification, defaultCnnBertResult, defaultTimeseriesData]

/-- Witness for C3: with every producer call failed, the orchestrator
returns the assessment computed entirely from the static defaults. -/
theorem analyze_substitutes_defaults_witness :
    analyze (.str "the vote was rigged") ⟨none, none, none, none, none, none⟩ = .ok
      ⟨computeHarmIndex ⟨"the vote was rigged",
          ⟨0.1, 0.1, 0.2, 0.1, 0.5⟩,
          ⟨.Informational, false, false, 0.1⟩,
          ⟨0.2, .Medium, false, []⟩,
          some 0.3⟩,
        ⟨some 0.3, 0.5, []⟩,
        ⟨[], [], "No historical data available", "Unable to forecast", []⟩,
        none⟩ :=
  analyze_substitutes_defaults "the vote was rigged"
    ⟨none, none, none, none, none, none⟩ (by decide) (Or.inl rfl)

/-- C6: the assess operation fails with the InvalidInput error exactly
when the request text is absent, not a string, or the empty string; the
rejection does not depend on any producer response (it precedes the
producer calls); and for every non-empty string the orchestrator
returns a successful Assessment, whatever producer failures occurred. -/
theorem analyze_input_validation (t : ReqText) (r : MLResponses) :
    ((∃ e, analyze t r = .badRequest e) ↔
      (t = .absent ∨ t = .nonString ∨ t = .str "")) ∧
    (textInvalid t = true → ∀ r2 : MLResponses,
      analyze t r2 = .badRequest "Text is required and must be a string") ∧
    (∀ s : String, t = .str s → s ≠ "" → ∃ d, analyze t r = .ok d) := by
  cases t with
  | absent =>
    refine ⟨by simp [analyze, textInvalid], fun _ r2 => by simp [analyze, textInvalid],
      fun s hcontra => by simp at hcontra⟩
  | nonString =>
    refine ⟨by simp [analyze, textInvalid], fun _ r2 => by simp [analyze, textInvalid],
      fun s hcontra => by simp at hcontra⟩
  | str s =>
    by_cases hs : s = ""
    · subst hs
      refine ⟨by simp [analyze, textInvalid], fun _ r2 => by simp [analyze, textInvalid],
        fun s' hs' hne => ?_⟩
      exact absurd hs'.symm (by simpa using hne)
    · refine ⟨by simp [analyze, textInvalid, hs], fun hbad => ?_, fun s' hs' _ => ?_⟩
      · simp [textInvalid, hs] at hbad
      · simp [analyze, textInvalid, hs]

/-- Witness for C6: a non-string body is rejected with the validation
error regardless of producer responses, and a non-empty string yields a
successful response. -/
theorem analyze_input_validation_witness :
    analyze .nonString ⟨none, none, none, none, none, none⟩ =
      .badRequest "Text is required and must be a string" ∧
    (∃ d, analyze (.str "drink bleach to cure flu")
      ⟨none, none, none, none, none, none⟩ = .ok d) :=
  ⟨(analyze_input_validation .nonString ⟨none, none, none, none, none, none⟩).2.1
      rfl ⟨none, none, none, none, none, none⟩,
   (analyze_input_validation (.str "drink bleach to cure flu")
      ⟨none, none, none, none, none, none⟩).2.2
      "drink bleach to cure flu" rfl (by decide)⟩

/-- Counterexample to C5 as stated: at an input that crosses none of the
narrative thresholds the composer's output is not free of clauses — the
clause list is the low-emotional-intensity clause, and the output string
carries that clause after its bullet. -/
theorem narrative_threshold_free_clause :
    explanationParts ⟨0, 0, 0.2, 0.1, 0.7⟩ ⟨.Informational, false, false, 0⟩
      ⟨0, .High, false, []⟩ = ["The statement has **low emotional intensity**"] ∧
    generateExplanation 0 ⟨0, 0, 0.2, 0.1, 0.7⟩ ⟨.Informational, false, false, 0⟩
      ⟨0, .High, false, []⟩ = "• The statement has **low emotional intensity**" := by
  have h1 : explanationParts ⟨0, 0, 0.2, 0.1, 0.7⟩ ⟨.Informational, false, false, 0⟩
      ⟨0, .High, false, []⟩ = ["The statement has **low emotional intensity**"] := by
    norm_num [explanationParts]
  refine ⟨h1, ?_⟩
  simp only [generateExplanation, h1]
  decide

/-- C5 amended: the composer's output is the bullet prefix followed by
exactly the clauses whose thresholds are met, joined with the bullet
separator in a fixed order with no clause emitted twice — where the
emotion-intensity tier always contributes exactly one clause, so an
input crossing none of the other thresholds yields exactly the single
low-emotional-intensity clause rather than no clause. -/
theorem generateExplanation_clause_list (h : ℤ) (e : EmotionScores)
    (i : IntentAnalysis) (t : TruthVerification) :
    generateExplanation h e i t =
      "• " ++ String.intercalate "\n• " (specNarrativeClauses e i t) ∧
    (specNarrativeClauses e i t).Nodup ∧
    (e.anger ≤ 0.3 → e.fear ≤ 0.3 → i.hasExplicitCTA = false →
      i.hasImplicitCTA = false → i.dogWhistleProbability ≤ 0.6 →
      t.similarityToFalseNarratives ≤ 0.4 → t.contradictorySources = false →
      specNarrativeClauses e i t = ["The statement has **low emotional intensity**"]) := by
  refine ⟨rfl, ?_, ?_⟩
  · simp only [specNarrativeClauses]
    split_ifs <;> decide
  · intro k1 k2 k3 k4 k5 k6 k7
    have h1 : ¬ e.anger > 0.3 := not_lt.mpr k1
    have h2 : ¬ e.fear > 0.3 := not_lt.mpr k2
    have h3 : ¬ e.anger > 0.6 := not_lt.mpr (k1.trans (by norm_num))
    have h4 : ¬ e.fear > 0.6 := not_lt.mpr (k2.trans (by norm_num))
    have h5 : ¬ t.similarityToFalseNarratives > 0.7 :=
      not_lt.mpr (k6.trans (by norm_num))
    simp [specNarrativeClauses, h1, h2, h3, h4, h5, k3, k4,
      not_lt.mpr k5, not_lt.mpr k6, k7]

/-- Witness for the amended C5 at boundary values (anger = 0.3,
fear = 0.3, dog-whistle = 0.6, similarity = 0.4, no CTAs, no
contradictions): the clause list is exactly the low-intensity clause. -/
theorem generateExplanation_clause_list_witness :
    specNarrativeClauses ⟨0.3, 0.3, 0, 0, 0.4⟩ ⟨.Informational, false, false, 0.6⟩
      ⟨0.4, .Low, false, []⟩ = ["The statement has **low emotional intensity**"] :=
  (generateExplanation_clause_list 0 ⟨0.3, 0.3, 0, 0, 0.4⟩
      ⟨.Informational, false, false, 0.6⟩ ⟨0.4, .Low, false, []⟩).2.2
    (by norm_num) (by norm_num) rfl rfl (by norm_num) (by norm_num) rfl

/-- Counterexample to C8 as stated: in scenario C the fear value 0.5
does not exceed the predictor's 0.6 threshold, so the outcome list is
exactly the action-oriented entry and the fear-driven entry is absent. -/
theorem scenarioC_fear_entry_absent :
    (computeHarmIndex scenarioCInput).pastOutcomes =
      [⟨"Inappropriate action without verification", .Medium⟩] ∧
    (⟨"Panic behavior or anxiety", .High⟩ : OutcomeEntry) ∉
      (computeHarmIndex scenarioCInput).pastOutcomes ∧
    (⟨"Panic behavior or anxiety", .Medium⟩ : OutcomeEntry) ∉
      (computeHarmIndex scenarioCInput).pastOutcomes := by
  have hp : (computeHarmIndex scenarioCInput).pastOutcomes =
      [⟨"Inappropriate action without verification", .Medium⟩] := by
    have : (computeHarmIndex scenarioCInput).pastOutcomes =
        generateHistoricalOutcomes (computeHarmIndex scenarioCInput).harmIndex
          .ActionOriented ⟨0.1, 0.5, 0.1, 0.1, 0.2⟩ := rfl
    rw [this]
    norm_num [generateHistoricalOutcomes]
    decide
  refine ⟨hp, ?_, ?_⟩ <;> rw [hp] <;> decide

/-- C8 amended: for the scenario C input the fusion calculator produces
composite score 41 — inside the expected 40–60 band — with tier Medium,
and the outcome predictor emits exactly the action-oriented entry (the
fear-driven entry does not fire since fear = 0.5 is below the 0.6
threshold). -/
theorem scenarioC_assessment :
    (computeHarmIndex scenarioCInput).harmIndex = 41 ∧
    40 ≤ (computeHarmIndex scenarioCInput).harmIndex ∧
    (computeHarmIndex scenarioCInput).harmIndex ≤ 60 ∧
    (computeHarmIndex scenarioCInput).riskLevel = .Medium ∧
    (computeHarmIndex scenarioCInput).pastOutcomes =
      [⟨"Inappropriate action without verification", .Medium⟩] := by
  have hs : (computeHarmIndex scenarioCInput).harmIndex = 41 := by
    norm_num [computeHarmIndex, scenarioCInput, intentRiskMap,
      evidenceConfidenceMap, round_eq]
  have hr : (computeHarmIndex scenarioCInput).riskLevel =
      (if (computeHarmIndex scenarioCInput).harmIndex ≤ 30 then RiskLevel.Low
       else if (computeHarmIndex scenarioCInput).harmIndex ≤ 60 then RiskLevel.Medium
       else RiskLevel.High) := rfl
  have hp : (computeHarmIndex scenarioCInput).pastOutcomes =
      [⟨"Inappropriate action without verification", .Medium⟩] := by
    have : (computeHarmIndex scenarioCInput).pastOutcomes =
        generateHistoricalOutcomes (computeHarmIndex scenarioCInput).harmIndex
          .ActionOriented ⟨0.1, 0.5, 0.1, 0.1, 0.2⟩ := rfl
    rw [this]
    norm_num [generateHistoricalOutcomes]
    decide
  refine ⟨hs, by omega, by omega, ?_, hp⟩
  rw [hr, hs]
  norm_num

/-- C10: for every input the narrative composer's output is the bullet
prefix '• ' followed by the joined clause list, hence non-empty, and the
clause list always contains exactly one of the three mutually exclusive
emotion-intensity clauses (and is itself non-empty): one intensity
branch fires unconditionally. -/
theorem generateExplanation_always_bullet (h : ℤ) (e : EmotionScores)
    (i : IntentAnalysis) (t : TruthVerification) :
    generateExplanation h e i t =
      "• " ++ String.intercalate "\n• " (explanationParts e i t) ∧
    generateExplanation h e i t ≠ "" ∧
    explanationParts e i t ≠ [] ∧
    (explanationParts e i t).countP
      (fun s => decide (s ∈ emotionIntensityClauses)) = 1 := by
  refine ⟨rfl, ?_, ?_, ?_⟩
  · intro hcontra
    have hl := congrArg String.length hcontra
    rw [generateExplanation] at hl
    simp [String.length_append] at hl
    exact absurd hl.1 (by decide)
  · simp only [explanationParts]
    split_ifs <;> simp
  · simp only [explanationParts]
    split_ifs <;> decide
